import Mathlib

/-!
Shallow embedding of the scoring logic of the `exam_corrector` repository:
`calculate_score_from_assessments`, `AnswerAssessment.calculate_score`,
`Feature.weight_percentage` and `StudentAssessment.total_score` from
`src/exam/assess/__init__.py`, and the per-question aggregation loop of
`assess_student_exam` from `src/exam/mcp/__init__.py`.

Modelling conventions:
* Python floats are modelled as exact rationals (`ℚ`).
* Python `round(x, n)` is modelled by `round2` / `round1` (scale, round to
  the nearest integer with Mathlib's `round`, unscale).  Python rounds
  half-to-even while Mathlib's `round` is half-up; the two agree away from
  exact ties, and every claim below is stated either exactly (where no tie
  can occur) or with the spec's 0.01 tolerance.
* The f-string `:.0f` format is modelled by `fmt0`, and the `repr` of a
  non-negative float holding an exact two-decimal value by `pyFloatRepr`.
* A Python `dict[Feature, FeatureAssessment]` is modelled as an association
  list; the scoring code only counts entries, so insertion order and key
  uniqueness are immaterial to every statement proved here.
-/

namespace ExamCorrector

/-- Feature categories, from the `FeatureType` enum of
`src/exam/assess/__init__.py`. -/
inductive FeatureType where
  | CORE
  | DETAILS_IMPORTANT
  | DETAILS_ADDITIONAL
deriving DecidableEq

/-- One checklist item (`Feature` dataclass): a category and a description. -/
structure Feature where
  type : FeatureType
  description : String
deriving DecidableEq

/-- Per-feature nominal weight, from `Feature.weight_percentage`:
0.70 for CORE, 0.20 for DETAILS_IMPORTANT, 0.10 for DETAILS_ADDITIONAL. -/
def Feature.weight_percentage (f : Feature) : ℚ :=
  if f.type = FeatureType.CORE then 7/10
  else if f.type = FeatureType.DETAILS_IMPORTANT then 2/10
  else 1/10

/-- The LLM verdict for one feature (`FeatureAssessment` pydantic model). -/
structure FeatureAssessment where
  satisfied : Bool
  motivation : String
deriving DecidableEq

/-- The `assessments` argument: a mapping from features to verdicts,
modelled as an association list. -/
abbrev Assessments := List (Feature × FeatureAssessment)

/-- Count `core_total = sum(1 for f in assessments if f.type == FeatureType.CORE)`. -/
def core_total (l : Assessments) : ℕ :=
  l.countP (fun p => decide (p.1.type = FeatureType.CORE))

/-- Count `core_satisfied`: core features whose assessment is satisfied. -/
def core_satisfied (l : Assessments) : ℕ :=
  l.countP (fun p => decide (p.1.type = FeatureType.CORE) && p.2.satisfied)

/-- Count `important_total` of DETAILS_IMPORTANT features. -/
def important_total (l : Assessments) : ℕ :=
  l.countP (fun p => decide (p.1.type = FeatureType.DETAILS_IMPORTANT))

/-- Count `important_satisfied`: DETAILS_IMPORTANT features assessed satisfied. -/
def important_satisfied (l : Assessments) : ℕ :=
  l.countP (fun p => decide (p.1.type = FeatureType.DETAILS_IMPORTANT) && p.2.satisfied)

/-- Count `additional_total` of DETAILS_ADDITIONAL features. -/
def additional_total (l : Assessments) : ℕ :=
  l.countP (fun p => decide (p.1.type = FeatureType.DETAILS_ADDITIONAL))

/-- Count `additional_satisfied`: DETAILS_ADDITIONAL features assessed satisfied. -/
def additional_satisfied (l : Assessments) : ℕ :=
  l.countP (fun p => decide (p.1.type = FeatureType.DETAILS_ADDITIONAL) && p.2.satisfied)

/-- The 0.70 core weight applied by both scoring functions. -/
def CORE_WEIGHT : ℚ := 7/10

/-- The 0.30 important weight applied by `calculate_score_from_assessments`. -/
def CSA_IMPORTANT_WEIGHT : ℚ := 3/10

/-- The 0.20 important weight applied by `AnswerAssessment.calculate_score`. -/
def ACS_IMPORTANT_WEIGHT : ℚ := 2/10

/-- The 0.10 additional weight applied by `AnswerAssessment.calculate_score`. -/
def ACS_ADDITIONAL_WEIGHT : ℚ := 1/10

/-- Python `round(q, 2)` (see the module comment about tie direction). -/
def round2 (q : ℚ) : ℚ := (round (q * 100) : ℚ) / 100

/-- Python `round(q, 1)`. -/
def round1 (q : ℚ) : ℚ := (round (q * 10) : ℚ) / 10

/-- Python f-string `:.0f` formatting. -/
def fmt0 (q : ℚ) : String := toString (round q)

/-- Python `repr` of a non-negative float carrying an exact two-decimal
value (always at least one digit after the point, no trailing zero beyond
it), as interpolated for `max_score` and `score` in the breakdown. -/
def pyFloatRepr (q : ℚ) : String :=
  let n : ℤ := round (q * 100)
  let ip : ℤ := n / 100
  let frac : ℤ := n % 100
  let d1 : ℤ := frac / 10
  let d2 : ℤ := frac % 10
  if d2 = 0 then s!"{ip}.{d1}"
  else if d1 = 0 then s!"{ip}.0{d2}"
  else s!"{ip}.{d1}{d2}"

/-- Line 57: `core_percentage = (core_satisfied / core_total * 0.70) if
core_total > 0 else 0.0` (identical at line 222). -/
def core_percentage (l : Assessments) : ℚ :=
  if 0 < core_total l then (core_satisfied l : ℚ) / (core_total l : ℚ) * CORE_WEIGHT
  else 0

/-- Line 58: `important_percentage = (important_satisfied / important_total
* 0.30) if important_total > 0 else 0.30`. -/
def csa_important_percentage (l : Assessments) : ℚ :=
  if 0 < important_total l then
    (important_satisfied l : ℚ) / (important_total l : ℚ) * CSA_IMPORTANT_WEIGHT
  else CSA_IMPORTANT_WEIGHT

/-- Line 223: `important_percentage = (important_satisfied / important_total
* 0.20) if important_total > 0 else 0.20`. -/
def acs_important_percentage (l : Assessments) : ℚ :=
  if 0 < important_total l then
    (important_satisfied l : ℚ) / (important_total l : ℚ) * ACS_IMPORTANT_WEIGHT
  else ACS_IMPORTANT_WEIGHT

/-- Line 224: `additional_percentage = (additional_satisfied /
additional_total * 0.10) if additional_total > 0 else 0.10`. -/
def acs_additional_percentage (l : Assessments) : ℚ :=
  if 0 < additional_total l then
    (additional_satisfied l : ℚ) / (additional_total l : ℚ) * ACS_ADDITIONAL_WEIGHT
  else ACS_ADDITIONAL_WEIGHT

/-- Lines 69-79: the breakdown clauses of `calculate_score_from_assessments`.
Note the source divides the important clause's raw percent by `0.20`
although this function's important weight is `0.30`. -/
def csa_breakdown_parts (l : Assessments) : List String :=
  (if 0 < core_total l then
    [s!"Core: {core_satisfied l}/{core_total l} ({fmt0 (core_percentage l / (7/10) * 100)}% → {fmt0 (core_percentage l * 100)}%)"]
   else []) ++
  (if 0 < important_total l then
    [s!"Important: {important_satisfied l}/{important_total l} ({fmt0 (csa_important_percentage l / (2/10) * 100)}% → {fmt0 (csa_important_percentage l * 100)}%)"]
   else [])

/-- One per-category record of the statistics dict (lines 86-97). -/
structure CategoryStats where
  total : ℕ
  satisfied : ℕ
  percentage : ℚ
deriving DecidableEq, Repr

/-- The statistics value returned by `calculate_score_from_assessments`:
either the empty dict `{}` or a dict with exactly the keys `"core"` and
`"details_important"`. -/
inductive Stats where
  | empty
  | mk (core : CategoryStats) (details_important : CategoryStats)
deriving DecidableEq, Repr

/-- Lines 86-97: the statistics dict for a non-empty assessment mapping. -/
def csa_stats (l : Assessments) : Stats :=
  Stats.mk
    ⟨core_total l, core_satisfied l,
      round1 (if 0 < core_total l then (core_satisfied l : ℚ) / (core_total l : ℚ) * 100 else 0)⟩
    ⟨important_total l, important_satisfied l,
      round1 (if 0 < important_total l then
        (important_satisfied l : ℚ) / (important_total l : ℚ) * 100 else 0)⟩

/-- Lines 28-99 of the assess module: `calculate_score_from_assessments` (of
`src/exam/assess/__init__.py`): the 70/30 scorer returning
`(score, breakdown, stats)`.  The additional-detail counts computed at
lines 52-54 are never used by the function and so do not appear. -/
def calculate_score_from_assessments (l : Assessments) (max_score : ℚ) :
    ℚ × String × Stats :=
  if l = [] then (0, "No features assessed", Stats.empty)
  else
    let final_percentage := core_percentage l + csa_important_percentage l
    let score := round2 (final_percentage * max_score)
    let breakdown := String.intercalate " + " (csa_breakdown_parts l) ++
      s!" = {fmt0 (final_percentage * 100)}% of {pyFloatRepr max_score} = {pyFloatRepr score}"
    (score, breakdown, csa_stats l)

/-- The `AnswerAssessment` dataclass: a student's answer and the
feature-to-verdict mapping. -/
structure AnswerAssessment where
  answer : String
  assessment : Assessments

/-- Lines 235-242: the breakdown clauses of
`AnswerAssessment.calculate_score` (divisors 0.70 / 0.20 / 0.10 here match
this function's weights). -/
def acs_breakdown_parts (l : Assessments) : List String :=
  (if 0 < core_total l then
    [s!"Core: {core_satisfied l}/{core_total l} ({fmt0 (core_percentage l / (7/10) * 100)}% → {fmt0 (core_percentage l * 100)}%)"]
   else []) ++
  (if 0 < important_total l then
    [s!"Important: {important_satisfied l}/{important_total l} ({fmt0 (acs_important_percentage l / (2/10) * 100)}% → {fmt0 (acs_important_percentage l * 100)}%)"]
   else []) ++
  (if 0 < additional_total l then
    [s!"Additional: {additional_satisfied l}/{additional_total l} ({fmt0 (acs_additional_percentage l / (1/10) * 100)}% → {fmt0 (acs_additional_percentage l * 100)}%)"]
   else [])

/-- Lines 192-247: `AnswerAssessment.calculate_score`, the 70/20/10 scorer
returning `(score, breakdown)`. -/
def AnswerAssessment.calculate_score (aa : AnswerAssessment) (max_score : ℚ) :
    ℚ × String :=
  if aa.assessment = [] then (0, "No features assessed")
  else
    let l := aa.assessment
    let final_percentage :=
      core_percentage l + acs_important_percentage l + acs_additional_percentage l
    let score := round2 (final_percentage * max_score)
    let breakdown := String.intercalate " + " (acs_breakdown_parts l) ++
      s!" = {fmt0 (final_percentage * 100)}% of {pyFloatRepr max_score} = {pyFloatRepr score}"
    (score, breakdown)

/-- Modelled from the spec: the `Question` class lives in the `exam`
package root, which is not part of the sources here; the scoring code only
reads its `weight` (the question's maximum score), alongside an identifier
and text. -/
structure Question where
  id : String
  text : String
  weight : ℚ

/-- The `StudentAssessment` dataclass: a student and their per-question
answer assessments. -/
structure StudentAssessment where
  name : String
  code : String
  answers : List (Question × AnswerAssessment)

/-- Lines 259-265: `StudentAssessment.total_score`: accumulate
`calculate_score(question.weight)` over all answers, then round to two
decimals. -/
def StudentAssessment.total_score (s : StudentAssessment) : ℚ :=
  round2 (s.answers.foldl
    (fun total qa => total + (qa.2.calculate_score qa.1.weight).1) 0)

/-- The `status` values attached to per-question assessment records by
`assess_student_exam` in `src/exam/mcp/__init__.py`. -/
inductive AssessStatus where
  | assessed
  | no_response
  | no_checklist
  | error
deriving DecidableEq

/-- One per-question record as accumulated by the `assess_student_exam`
loop: its status, the score (0.0 unless assessed) and the question's
maximum score. -/
structure QuestionAssessment where
  status : AssessStatus
  score : ℚ
  max_score : ℚ

/-- The accumulation in `assess_student_exam`'s question loop: every
branch adds `question["score"]` to `total_max_score`, and only the
`"assessed"` branch adds the computed score to `total_score`.  Returns
`(total_score, total_max_score)`. -/
def assess_student_exam_totals (qs : List QuestionAssessment) : ℚ × ℚ :=
  qs.foldl
    (fun acc q =>
      (if q.status = AssessStatus.assessed then acc.1 + q.score else acc.1,
       acc.2 + q.max_score))
    (0, 0)

/-- Division with an explicit zero-denominator check, used by the
`Option`-valued variants below to show that no division in the scoring
functions can fail. -/
def div? (a b : ℚ) : Option ℚ :=
  if b = 0 then none else some (a / b)

/-- Variant of `calculate_score_from_assessments` with every division routed through
`div?`: the computation fails (returns `none`) if any division's
denominator is zero.  Mirrors the guards of the source. -/
def calculate_score_from_assessments_checked (l : Assessments) (max_score : ℚ) :
    Option (ℚ × String × Stats) :=
  if l = [] then some (0, "No features assessed", Stats.empty)
  else do
    let core_pct ←
      if 0 < core_total l then do
        let r ← div? (core_satisfied l : ℚ) (core_total l : ℚ)
        pure (r * CORE_WEIGHT)
      else pure 0
    let important_pct ←
      if 0 < important_total l then do
        let r ← div? (important_satisfied l : ℚ) (important_total l : ℚ)
        pure (r * CSA_IMPORTANT_WEIGHT)
      else pure CSA_IMPORTANT_WEIGHT
    let final_percentage := core_pct + important_pct
    let score := round2 (final_percentage * max_score)
    let core_part ←
      if 0 < core_total l then do
        let raw ← div? core_pct (7/10)
        pure [s!"Core: {core_satisfied l}/{core_total l} ({fmt0 (raw * 100)}% → {fmt0 (core_pct * 100)}%)"]
      else pure []
    let important_part ←
      if 0 < important_total l then do
        let raw ← div? important_pct (2/10)
        pure [s!"Important: {important_satisfied l}/{important_total l} ({fmt0 (raw * 100)}% → {fmt0 (important_pct * 100)}%)"]
      else pure []
    let core_stat_pct ←
      if 0 < core_total l then do
        let r ← div? (core_satisfied l : ℚ) (core_total l : ℚ)
        pure (r * 100)
      else pure 0
    let important_stat_pct ←
      if 0 < important_total l then do
        let r ← div? (important_satisfied l : ℚ) (important_total l : ℚ)
        pure (r * 100)
      else pure 0
    pure (score,
      String.intercalate " + " (core_part ++ important_part) ++
        s!" = {fmt0 (final_percentage * 100)}% of {pyFloatRepr max_score} = {pyFloatRepr score}",
      Stats.mk ⟨core_total l, core_satisfied l, round1 core_stat_pct⟩
        ⟨important_total l, important_satisfied l, round1 important_stat_pct⟩)

/-- Variant of `AnswerAssessment.calculate_score` with every division routed through
`div?`. -/
def AnswerAssessment.calculate_score_checked (aa : AnswerAssessment) (max_score : ℚ) :
    Option (ℚ × String) :=
  if aa.assessment = [] then some (0, "No features assessed")
  else do
    let l := aa.assessment
    let core_pct ←
      if 0 < core_total l then do
        let r ← div? (core_satisfied l : ℚ) (core_total l : ℚ)
        pure (r * CORE_WEIGHT)
      else pure 0
    let important_pct ←
      if 0 < important_total l then do
        let r ← div? (important_satisfied l : ℚ) (important_total l : ℚ)
        pure (r * ACS_IMPORTANT_WEIGHT)
      else pure ACS_IMPORTANT_WEIGHT
    let additional_pct ←
      if 0 < additional_total l then do
        let r ← div? (additional_satisfied l : ℚ) (additional_total l : ℚ)
        pure (r * ACS_ADDITIONAL_WEIGHT)
      else pure ACS_ADDITIONAL_WEIGHT
    let final_percentage := core_pct + important_pct + additional_pct
    let score := round2 (final_percentage * max_score)
    let core_part ←
      if 0 < core_total l then do
        let raw ← div? core_pct (7/10)
        pure [s!"Core: {core_satisfied l}/{core_total l} ({fmt0 (raw * 100)}% → {fmt0 (core_pct * 100)}%)"]
      else pure []
    let important_part ←
      if 0 < important_total l then do
        let raw ← div? important_pct (2/10)
        pure [s!"Important: {important_satisfied l}/{important_total l} ({fmt0 (raw * 100)}% → {fmt0 (important_pct * 100)}%)"]
      else pure []
    let additional_part ←
      if 0 < additional_total l then do
        let raw ← div? additional_pct (1/10)
        pure [s!"Additional: {additional_satisfied l}/{additional_total l} ({fmt0 (raw * 100)}% → {fmt0 (additional_pct * 100)}%)"]
      else pure []
    pure (score,
      String.intercalate " + " (core_part ++ important_part ++ additional_part) ++
        s!" = {fmt0 (final_percentage * 100)}% of {pyFloatRepr max_score} = {pyFloatRepr score}")

/-- A mapping holding one satisfied important-detail feature and no core
feature (input refuting the claim that an absent core category contributes
its nominal weight). -/
def exC1 : Assessments :=
  [(⟨FeatureType.DETAILS_IMPORTANT, "i1"⟩, ⟨true, "ok"⟩)]

/-- A mapping holding one satisfied core feature and nothing else. -/
def exC1w : Assessments :=
  [(⟨FeatureType.CORE, "c1"⟩, ⟨true, "ok"⟩)]

/-- A mapping where every feature of every populated category is satisfied
but the core category is empty. -/
def exC2 : Assessments :=
  [(⟨FeatureType.DETAILS_IMPORTANT, "i1"⟩, ⟨true, "ok"⟩)]

/-- A fully satisfied mapping whose core category is populated. -/
def exC2w : Assessments :=
  [(⟨FeatureType.CORE, "c1"⟩, ⟨true, "ok"⟩)]

/-- Two important-detail features, one satisfied: the breakdown's raw
percent for the important category should read 50% but reads 75%. -/
def exC7 : Assessments :=
  [(⟨FeatureType.DETAILS_IMPORTANT, "i1"⟩, ⟨true, "ok"⟩),
   (⟨FeatureType.DETAILS_IMPORTANT, "i2"⟩, ⟨false, "missing"⟩)]

/-- A mapping holding one core and one additional-detail feature. -/
def exC8 : Assessments :=
  [(⟨FeatureType.CORE, "c1"⟩, ⟨true, "ok"⟩),
   (⟨FeatureType.DETAILS_ADDITIONAL, "a1"⟩, ⟨true, "ok"⟩)]

/-! ### Helper lemmas -/

theorem round2_mono {q r : ℚ} (h : q ≤ r) : round2 q ≤ round2 r := by
  unfold round2
  have h1 : round (q * 100) ≤ round (r * 100) := by
    rw [round_eq, round_eq]
    exact Int.floor_le_floor (by linarith)
  have h2 : ((round (q * 100) : ℤ) : ℚ) ≤ ((round (r * 100) : ℤ) : ℚ) := by
    exact_mod_cast h1
  linarith

theorem round2_nonneg {q : ℚ} (h : 0 ≤ q) : 0 ≤ round2 q := by
  unfold round2
  have h1 : (0 : ℤ) ≤ round (q * 100) := by
    rw [round_eq]
    exact Int.floor_nonneg.mpr (by linarith)
  have h2 : ((0 : ℤ) : ℚ) ≤ ((round (q * 100) : ℤ) : ℚ) := by exact_mod_cast h1
  have : (0 : ℚ) ≤ (round (q * 100) : ℚ) := by exact_mod_cast h2
  positivity

theorem round2_abs_sub (q : ℚ) : |round2 q - q| ≤ 1 / 200 := by
  unfold round2
  have h := abs_sub_round (q * 100)
  rw [abs_le] at h ⊢
  obtain ⟨h1, h2⟩ := h
  constructor <;> linarith

theorem round2_le (q : ℚ) : round2 q ≤ q + 1 / 200 := by
  have h := round2_abs_sub q
  rw [abs_le] at h
  linarith

theorem core_satisfied_le (l : Assessments) : core_satisfied l ≤ core_total l :=
  List.countP_mono_left fun x _ h => by
    simp only [Bool.and_eq_true] at h
    exact h.1

theorem important_satisfied_le (l : Assessments) :
    important_satisfied l ≤ important_total l :=
  List.countP_mono_left fun x _ h => by
    simp only [Bool.and_eq_true] at h
    exact h.1

theorem additional_satisfied_le (l : Assessments) :
    additional_satisfied l ≤ additional_total l :=
  List.countP_mono_left fun x _ h => by
    simp only [Bool.and_eq_true] at h
    exact h.1

theorem ratio_mul_bounds {s t : ℕ} (hs : s ≤ t) {w : ℚ} (hw : 0 ≤ w) :
    0 ≤ (s : ℚ) / (t : ℚ) * w ∧ (s : ℚ) / (t : ℚ) * w ≤ w := by
  rcases Nat.eq_zero_or_pos t with ht | ht
  · subst ht
    simp [Nat.le_zero.mp hs, hw]
  · have ht' : (0 : ℚ) < t := by exact_mod_cast ht
    refine ⟨by positivity, ?_⟩
    have hr : (s : ℚ) / (t : ℚ) ≤ 1 := by
      rw [div_le_one ht']
      exact_mod_cast hs
    nlinarith [div_nonneg (show (0:ℚ) ≤ (s:ℚ) by positivity) ht'.le]

theorem core_percentage_bounds (l : Assessments) :
    0 ≤ core_percentage l ∧ core_percentage l ≤ CORE_WEIGHT := by
  unfold core_percentage
  split
  · exact ratio_mul_bounds (core_satisfied_le l) (by norm_num [CORE_WEIGHT])
  · norm_num [CORE_WEIGHT]

theorem csa_important_percentage_bounds (l : Assessments) :
    0 ≤ csa_important_percentage l ∧
      csa_important_percentage l ≤ CSA_IMPORTANT_WEIGHT := by
  unfold csa_important_percentage
  split
  · exact ratio_mul_bounds (important_satisfied_le l) (by norm_num [CSA_IMPORTANT_WEIGHT])
  · norm_num [CSA_IMPORTANT_WEIGHT]

theorem acs_important_percentage_bounds (l : Assessments) :
    0 ≤ acs_important_percentage l ∧
      acs_important_percentage l ≤ ACS_IMPORTANT_WEIGHT := by
  unfold acs_important_percentage
  split
  · exact ratio_mul_bounds (important_satisfied_le l) (by norm_num [ACS_IMPORTANT_WEIGHT])
  · norm_num [ACS_IMPORTANT_WEIGHT]

theorem acs_additional_percentage_bounds (l : Assessments) :
    0 ≤ acs_additional_percentage l ∧
      acs_additional_percentage l ≤ ACS_ADDITIONAL_WEIGHT := by
  unfold acs_additional_percentage
  split
  · exact ratio_mul_bounds (additional_satisfied_le l) (by norm_num [ACS_ADDITIONAL_WEIGHT])
  · norm_num [ACS_ADDITIONAL_WEIGHT]

theorem score_bounds {f m : ℚ} (hf0 : 0 ≤ f) (hf1 : f ≤ 1) (hm : 0 ≤ m) :
    0 ≤ round2 (f * m) ∧ round2 (f * m) ≤ m + 1 / 100 := by
  have hx0 : 0 ≤ f * m := mul_nonneg hf0 hm
  have hxm : f * m ≤ m := by nlinarith
  refine ⟨round2_nonneg hx0, ?_⟩
  have := round2_le (f * m)
  linarith

theorem core_percentage_mono {l₁ l₂ : Assessments}
    (ht : core_total l₁ = core_total l₂)
    (hs : core_satisfied l₁ ≤ core_satisfied l₂) :
    core_percentage l₁ ≤ core_percentage l₂ := by
  unfold core_percentage
  rw [ht]
  rcases Nat.eq_zero_or_pos (core_total l₂) with h | h
  · rw [if_neg (by omega), if_neg (by omega)]
  · rw [if_pos h, if_pos h]
    have h' : (0 : ℚ) < (core_total l₂ : ℚ) := by exact_mod_cast h
    have hs' : (core_satisfied l₁ : ℚ) ≤ (core_satisfied l₂ : ℚ) := by exact_mod_cast hs
    have hw : (0 : ℚ) ≤ CORE_WEIGHT := by norm_num [CORE_WEIGHT]
    exact mul_le_mul_of_nonneg_right (by gcongr) hw

theorem csa_important_percentage_mono {l₁ l₂ : Assessments}
    (ht : important_total l₁ = important_total l₂)
    (hs : important_satisfied l₁ ≤ important_satisfied l₂) :
    csa_important_percentage l₁ ≤ csa_important_percentage l₂ := by
  unfold csa_important_percentage
  rw [ht]
  rcases Nat.eq_zero_or_pos (important_total l₂) with h | h
  · rw [if_neg (by omega), if_neg (by omega)]
  · rw [if_pos h, if_pos h]
    have h' : (0 : ℚ) < (important_total l₂ : ℚ) := by exact_mod_cast h
    have hs' : (important_satisfied l₁ : ℚ) ≤ (important_satisfied l₂ : ℚ) := by exact_mod_cast hs
    have hw : (0 : ℚ) ≤ CSA_IMPORTANT_WEIGHT := by norm_num [CSA_IMPORTANT_WEIGHT]
    exact mul_le_mul_of_nonneg_right (by gcongr) hw

theorem acs_important_percentage_mono {l₁ l₂ : Assessments}
    (ht : important_total l₁ = important_total l₂)
    (hs : important_satisfied l₁ ≤ important_satisfied l₂) :
    acs_important_percentage l₁ ≤ acs_important_percentage l₂ := by
  unfold acs_important_percentage
  rw [ht]
  rcases Nat.eq_zero_or_pos (important_total l₂) with h | h
  · rw [if_neg (by omega), if_neg (by omega)]
  · rw [if_pos h, if_pos h]
    have h' : (0 : ℚ) < (important_total l₂ : ℚ) := by exact_mod_cast h
    have hs' : (important_satisfied l₁ : ℚ) ≤ (important_satisfied l₂ : ℚ) := by exact_mod_cast hs
    have hw : (0 : ℚ) ≤ ACS_IMPORTANT_WEIGHT := by norm_num [ACS_IMPORTANT_WEIGHT]
    exact mul_le_mul_of_nonneg_right (by gcongr) hw

theorem acs_additional_percentage_mono {l₁ l₂ : Assessments}
    (ht : additional_total l₁ = additional_total l₂)
    (hs : additional_satisfied l₁ ≤ additional_satisfied l₂) :
    acs_additional_percentage l₁ ≤ acs_additional_percentage l₂ := by
  unfold acs_additional_percentage
  rw [ht]
  rcases Nat.eq_zero_or_pos (additional_total l₂) with h | h
  · rw [if_neg (by omega), if_neg (by omega)]
  · rw [if_pos h, if_pos h]
    have h' : (0 : ℚ) < (additional_total l₂ : ℚ) := by exact_mod_cast h
    have hs' : (additional_satisfied l₁ : ℚ) ≤ (additional_satisfied l₂ : ℚ) := by exact_mod_cast hs
    have hw : (0 : ℚ) ≤ ACS_ADDITIONAL_WEIGHT := by norm_num [ACS_ADDITIONAL_WEIGHT]
    exact mul_le_mul_of_nonneg_right (by gcongr) hw

theorem counts_flip_totals (a b : Assessments) (f : Feature) (mot mot2 : String) :
    core_total (a ++ (f, ⟨false, mot⟩) :: b) = core_total (a ++ (f, ⟨true, mot2⟩) :: b) ∧
    important_total (a ++ (f, ⟨false, mot⟩) :: b) =
      important_total (a ++ (f, ⟨true, mot2⟩) :: b) ∧
    additional_total (a ++ (f, ⟨false, mot⟩) :: b) =
      additional_total (a ++ (f, ⟨true, mot2⟩) :: b) := by
  refine ⟨?_, ?_, ?_⟩ <;>
    simp [core_total, important_total, additional_total, List.countP_append,
      List.countP_cons]

theorem counts_flip_satisfied (a b : Assessments) (f : Feature) (mot mot2 : String) :
    core_satisfied (a ++ (f, ⟨false, mot⟩) :: b) ≤
      core_satisfied (a ++ (f, ⟨true, mot2⟩) :: b) ∧
    important_satisfied (a ++ (f, ⟨false, mot⟩) :: b) ≤
      important_satisfied (a ++ (f, ⟨true, mot2⟩) :: b) ∧
    additional_satisfied (a ++ (f, ⟨false, mot⟩) :: b) ≤
      additional_satisfied (a ++ (f, ⟨true, mot2⟩) :: b) := by
  refine ⟨?_, ?_, ?_⟩ <;>
    simp [core_satisfied, important_satisfied, additional_satisfied,
      List.countP_append, List.countP_cons]

theorem csa_checked_eq (l : Assessments) (m : ℚ) :
    calculate_score_from_assessments_checked l m =
      some (calculate_score_from_assessments l m) := by
  by_cases hl : l = []
  · simp [hl, calculate_score_from_assessments_checked, calculate_score_from_assessments]
  · unfold calculate_score_from_assessments_checked calculate_score_from_assessments
      csa_breakdown_parts csa_stats core_percentage csa_important_percentage
    have hc7 : ((7 : ℚ)/10) ≠ 0 := by norm_num
    have hc2 : ((2 : ℚ)/10) ≠ 0 := by norm_num
    by_cases hc : 0 < core_total l <;> by_cases hi : 0 < important_total l
    · have hcn : ((core_total l : ℚ)) ≠ 0 := by exact_mod_cast hc.ne'
      have hin : ((important_total l : ℚ)) ≠ 0 := by exact_mod_cast hi.ne'
      simp [hl, hc, hi, div?, hcn, hin, hc7, hc2]
    · have hcn : ((core_total l : ℚ)) ≠ 0 := by exact_mod_cast hc.ne'
      simp [hl, hc, hi, div?, hcn, hc7, hc2]
    · have hin : ((important_total l : ℚ)) ≠ 0 := by exact_mod_cast hi.ne'
      simp [hl, hc, hi, div?, hin, hc7, hc2]
    · simp [hl, hc, hi, div?, hc7, hc2]

theorem acs_checked_eq (aa : AnswerAssessment) (m : ℚ) :
    aa.calculate_score_checked m = some (aa.calculate_score m) := by
  by_cases hl : aa.assessment = []
  · simp [hl, AnswerAssessment.calculate_score_checked, AnswerAssessment.calculate_score]
  · unfold AnswerAssessment.calculate_score_checked AnswerAssessment.calculate_score
      acs_breakdown_parts core_percentage acs_important_percentage
      acs_additional_percentage
    have hc7 : ((7 : ℚ)/10) ≠ 0 := by norm_num
    have hc2 : ((2 : ℚ)/10) ≠ 0 := by norm_num
    have hc1 : ((1 : ℚ)/10) ≠ 0 := by norm_num
    by_cases hc : 0 < core_total aa.assessment <;>
      by_cases hi : 0 < important_total aa.assessment <;>
      by_cases ha : 0 < additional_total aa.assessment
    all_goals {
      first
      | (have hcn : ((core_total aa.assessment : ℚ)) ≠ 0 := by exact_mod_cast hc.ne'
         first
         | (have hin : ((important_total aa.assessment : ℚ)) ≠ 0 := by
              exact_mod_cast hi.ne'
            first
            | (have han : ((additional_total aa.assessment : ℚ)) ≠ 0 := by
                 exact_mod_cast ha.ne'
               simp [hl, hc, hi, ha, div?, hcn, hin, han, hc7, hc2, hc1])
            | simp [hl, hc, hi, ha, div?, hcn, hin, hc7, hc2, hc1])
         | (first
            | (have han : ((additional_total aa.assessment : ℚ)) ≠ 0 := by
                 exact_mod_cast ha.ne'
               simp [hl, hc, hi, ha, div?, hcn, han, hc7, hc2, hc1])
            | simp [hl, hc, hi, ha, div?, hcn, hc7, hc2, hc1]))
      | (first
         | (have hin : ((important_total aa.assessment : ℚ)) ≠ 0 := by
              exact_mod_cast hi.ne'
            first
            | (have han : ((additional_total aa.assessment : ℚ)) ≠ 0 := by
                 exact_mod_cast ha.ne'
               simp [hl, hc, hi, ha, div?, hin, han, hc7, hc2, hc1])
            | simp [hl, hc, hi, ha, div?, hin, hc7, hc2, hc1])
         | (first
            | (have han : ((additional_total aa.assessment : ℚ)) ≠ 0 := by
                 exact_mod_cast ha.ne'
               simp [hl, hc, hi, ha, div?, han, hc7, hc2, hc1])
            | simp [hl, hc, hi, ha, div?, hc7, hc2, hc1])) }

theorem csa_eq_of_counts {l₁ l₂ : Assessments} (m : ℚ)
    (hne₁ : l₁ ≠ []) (hne₂ : l₂ ≠ [])
    (h₁ : core_total l₁ = core_total l₂)
    (h₂ : core_satisfied l₁ = core_satisfied l₂)
    (h₃ : important_total l₁ = important_total l₂)
    (h₄ : important_satisfied l₁ = important_satisfied l₂) :
    calculate_score_from_assessments l₁ m = calculate_score_from_assessments l₂ m := by
  unfold calculate_score_from_assessments csa_breakdown_parts csa_stats
    core_percentage csa_important_percentage
  rw [h₁, h₂, h₃, h₄]
  simp [hne₁, hne₂]

theorem foldl_add_eq (g : Question × AnswerAssessment → ℚ)
    (l : List (Question × AnswerAssessment)) (init : ℚ) :
    l.foldl (fun total qa => total + g qa) init = init + (l.map g).sum := by
  induction l generalizing init with
  | nil => simp
  | cons x xs ih => simp [ih]; ring

theorem assess_totals_go (qs : List QuestionAssessment) (a b : ℚ) :
    qs.foldl
        (fun acc q =>
          (if q.status = AssessStatus.assessed then acc.1 + q.score else acc.1,
           acc.2 + q.max_score))
        (a, b) =
      (a + (qs.map fun q =>
              if q.status = AssessStatus.assessed then q.score else 0).sum,
       b + (qs.map fun q => q.max_score).sum) := by
  induction qs generalizing a b with
  | nil => simp
  | cons x xs ih =>
    by_cases hx : x.status = AssessStatus.assessed <;> simp [hx, ih, add_assoc]

theorem csa_score_eq (l : Assessments) (m : ℚ) (hl : l ≠ []) :
    (calculate_score_from_assessments l m).1 =
      round2 ((core_percentage l + csa_important_percentage l) * m) := by
  unfold calculate_score_from_assessments
  simp [hl]

theorem acs_score_eq (ans : String) (l : Assessments) (m : ℚ) (hl : l ≠ []) :
    ((AnswerAssessment.mk ans l).calculate_score m).1 =
      round2 ((core_percentage l + acs_important_percentage l +
        acs_additional_percentage l) * m) := by
  unfold AnswerAssessment.calculate_score
  simp [hl]

theorem core_percentage_of_zero {l : Assessments} (h : core_total l = 0) :
    core_percentage l = 0 := by
  unfold core_percentage
  simp [h]

theorem csa_important_percentage_of_zero {l : Assessments}
    (h : important_total l = 0) :
    csa_important_percentage l = CSA_IMPORTANT_WEIGHT := by
  unfold csa_important_percentage
  simp [h]

theorem acs_important_percentage_of_zero {l : Assessments}
    (h : important_total l = 0) :
    acs_important_percentage l = ACS_IMPORTANT_WEIGHT := by
  unfold acs_important_percentage
  simp [h]

theorem acs_additional_percentage_of_zero {l : Assessments}
    (h : additional_total l = 0) :
    acs_additional_percentage l = ACS_ADDITIONAL_WEIGHT := by
  unfold acs_additional_percentage
  simp [h]

theorem round_rat_eval (n : ℤ) {q : ℚ} (h₁ : (n : ℚ) ≤ q + 1/2)
    (h₂ : q + 1/2 < n + 1) : round q = n := by
  rw [round_eq]
  exact Int.floor_eq_iff.mpr ⟨h₁, h₂⟩

theorem round2_eval (n : ℤ) {q : ℚ} (h₁ : (n : ℚ) ≤ q * 100 + 1/2)
    (h₂ : q * 100 + 1/2 < n + 1) : round2 q = (n : ℚ) / 100 := by
  unfold round2
  rw [round_rat_eval n h₁ h₂]

theorem fmt0_eval (n : ℤ) {q : ℚ} (h₁ : (n : ℚ) ≤ q + 1/2)
    (h₂ : q + 1/2 < n + 1) : fmt0 q = toString n := by
  unfold fmt0
  rw [round_rat_eval n h₁ h₂]

theorem csa_result_eq (l : Assessments) (m : ℚ) (hl : l ≠ []) :
    calculate_score_from_assessments l m =
      (round2 ((core_percentage l + csa_important_percentage l) * m),
       String.intercalate " + " (csa_breakdown_parts l) ++
         s!" = {fmt0 ((core_percentage l + csa_important_percentage l) * 100)}% of {pyFloatRepr m} = {pyFloatRepr (round2 ((core_percentage l + csa_important_percentage l) * m))}",
       csa_stats l) := by
  unfold calculate_score_from_assessments
  simp [hl]

/-! ### Claim theorems -/

/-- C5: for every maxScore, scoring an empty assessment mapping returns
score 0.0, breakdown "No features assessed" and empty statistics in
`calculate_score_from_assessments`, and `(0.0, "No features assessed")` in
`AnswerAssessment.calculate_score`; a defined result, not an error. -/
theorem C5_empty_input (m : ℚ) (ans : String) :
    calculate_score_from_assessments [] m = (0, "No features assessed", Stats.empty) ∧
    (AnswerAssessment.mk ans []).calculate_score m = (0, "No features assessed") := by
  constructor <;> rfl

/-- C6: for every finite assessment mapping and every maxScore, both
scorers return a result without any failing operation: the variants that
check every division for a zero denominator always succeed, returning
exactly the unchecked result. -/
theorem C6_totality (l : Assessments) (m : ℚ) (ans : String) :
    calculate_score_from_assessments_checked l m =
      some (calculate_score_from_assessments l m) ∧
    (AnswerAssessment.mk ans l).calculate_score_checked m =
      some ((AnswerAssessment.mk ans l).calculate_score m) :=
  ⟨csa_checked_eq l m, acs_checked_eq ⟨ans, l⟩ m⟩

/-- C9: `StudentAssessment.total_score` equals the per-question scores
(each computed against that question's own weight) summed and rounded to
two decimals; and the `assess_student_exam` accumulation gives a question
with status other than "assessed" a 0.0 contribution to the total score
while still adding its full maximum score to the accumulated maximum. -/
theorem C9_aggregation (s : StudentAssessment) (qs : List QuestionAssessment) :
    s.total_score =
      round2 ((s.answers.map fun qa => (qa.2.calculate_score qa.1.weight).1).sum) ∧
    (assess_student_exam_totals qs).1 =
      (qs.map fun q =>
        if q.status = AssessStatus.assessed then q.score else 0).sum ∧
    (assess_student_exam_totals qs).2 = (qs.map fun q => q.max_score).sum := by
  refine ⟨?_, ?_, ?_⟩
  · unfold StudentAssessment.total_score
    rw [foldl_add_eq]
    simp
  · unfold assess_student_exam_totals
    rw [assess_totals_go]
    simp
  · unfold assess_student_exam_totals
    rw [assess_totals_go]
    simp

/-- C10: the nominal category weights sum to exactly 1.0: the per-feature
weights of `Feature.weight_percentage` (0.70 + 0.20 + 0.10), the weights
applied by `calculate_score_from_assessments` (0.70 + 0.30), and the
weights applied by `AnswerAssessment.calculate_score` (0.70 + 0.20 +
0.10). -/
theorem C10_weights_sum_to_one (c i a : String) :
    (Feature.mk FeatureType.CORE c).weight_percentage +
        (Feature.mk FeatureType.DETAILS_IMPORTANT i).weight_percentage +
        (Feature.mk FeatureType.DETAILS_ADDITIONAL a).weight_percentage = 1 ∧
    CORE_WEIGHT + CSA_IMPORTANT_WEIGHT = 1 ∧
    CORE_WEIGHT + ACS_IMPORTANT_WEIGHT + ACS_ADDITIONAL_WEIGHT = 1 := by
  have h1 : FeatureType.DETAILS_IMPORTANT ≠ FeatureType.CORE := by decide
  have h2 : FeatureType.DETAILS_ADDITIONAL ≠ FeatureType.CORE := by decide
  have h3 : FeatureType.DETAILS_ADDITIONAL ≠ FeatureType.DETAILS_IMPORTANT := by decide
  refine ⟨?_, ?_, ?_⟩ <;>
    norm_num [Feature.weight_percentage, h1, h2, h3, CORE_WEIGHT,
      CSA_IMPORTANT_WEIGHT, ACS_IMPORTANT_WEIGHT, ACS_ADDITIONAL_WEIGHT]

/-- C3: for every assessment mapping (including empty) and every
maxScore >= 0, the score returned by `calculate_score_from_assessments`
and by `AnswerAssessment.calculate_score` lies between 0 and maxScore
within the 0.01 rounding tolerance (the lower bound holds exactly). -/
theorem C3_score_bounds (l : Assessments) (m : ℚ) (ans : String) (hm : 0 ≤ m) :
    (0 ≤ (calculate_score_from_assessments l m).1 ∧
      (calculate_score_from_assessments l m).1 ≤ m + 1/100) ∧
    (0 ≤ ((AnswerAssessment.mk ans l).calculate_score m).1 ∧
      ((AnswerAssessment.mk ans l).calculate_score m).1 ≤ m + 1/100) := by
  by_cases hl : l = []
  · subst hl
    have e1 : calculate_score_from_assessments [] m =
        (0, "No features assessed", Stats.empty) := rfl
    have e2 : (AnswerAssessment.mk ans []).calculate_score m =
        (0, "No features assessed") := rfl
    rw [e1, e2]
    norm_num
    linarith
  · obtain ⟨hc0, hc1⟩ := core_percentage_bounds l
    obtain ⟨hi0, hi1⟩ := csa_important_percentage_bounds l
    obtain ⟨hj0, hj1⟩ := acs_important_percentage_bounds l
    obtain ⟨ha0, ha1⟩ := acs_additional_percentage_bounds l
    rw [csa_score_eq l m hl, acs_score_eq ans l m hl]
    have hw1 : CORE_WEIGHT = 7/10 := rfl
    have hw2 : CSA_IMPORTANT_WEIGHT = 3/10 := rfl
    have hw3 : ACS_IMPORTANT_WEIGHT = 2/10 := rfl
    have hw4 : ACS_ADDITIONAL_WEIGHT = 1/10 := rfl
    constructor
    · exact score_bounds (by linarith) (by rw [hw1] at hc1; rw [hw2] at hi1; linarith) hm
    · exact score_bounds (by linarith)
        (by rw [hw1] at hc1; rw [hw3] at hj1; rw [hw4] at ha1; linarith) hm

/-- Witness for C3 at a concrete input. -/
theorem C3_score_bounds_witness :
    (0 : ℚ) ≤ 3 ∧
    (0 ≤ (calculate_score_from_assessments exC7 3).1 ∧
      (calculate_score_from_assessments exC7 3).1 ≤ 3 + 1/100) := by
  refine ⟨by norm_num, ?_⟩
  exact (C3_score_bounds exC7 3 "a" (by norm_num)).1

/-- C4: changing exactly one feature's assessment from unsatisfied to
satisfied, everything else unchanged, never decreases the score of either
scorer (all categories are positive-polarity). -/
theorem C4_flip_monotone (a b : Assessments) (f : Feature)
    (mot mot2 ans : String) (m : ℚ) (hm : 0 ≤ m) :
    (calculate_score_from_assessments (a ++ (f, ⟨false, mot⟩) :: b) m).1 ≤
      (calculate_score_from_assessments (a ++ (f, ⟨true, mot2⟩) :: b) m).1 ∧
    ((AnswerAssessment.mk ans (a ++ (f, ⟨false, mot⟩) :: b)).calculate_score m).1 ≤
      ((AnswerAssessment.mk ans (a ++ (f, ⟨true, mot2⟩) :: b)).calculate_score m).1 := by
  have hne₁ : a ++ (f, (⟨false, mot⟩ : FeatureAssessment)) :: b ≠ [] := by simp
  have hne₂ : a ++ (f, (⟨true, mot2⟩ : FeatureAssessment)) :: b ≠ [] := by simp
  obtain ⟨ht1, ht2, ht3⟩ := counts_flip_totals a b f mot mot2
  obtain ⟨hs1, hs2, hs3⟩ := counts_flip_satisfied a b f mot mot2
  have hcp := core_percentage_mono ht1 hs1
  have hip := csa_important_percentage_mono ht2 hs2
  have hjp := acs_important_percentage_mono ht2 hs2
  have hap := acs_additional_percentage_mono ht3 hs3
  rw [csa_score_eq _ _ hne₁, csa_score_eq _ _ hne₂,
    acs_score_eq _ _ _ hne₁, acs_score_eq _ _ _ hne₂]
  constructor <;>
    exact round2_mono (mul_le_mul_of_nonneg_right (by linarith) hm)

/-- Witness for C4 at a concrete input. -/
theorem C4_flip_monotone_witness :
    (0 : ℚ) ≤ 2 ∧
    (calculate_score_from_assessments
        ([] ++ (⟨FeatureType.CORE, "c1"⟩, ⟨false, "no"⟩) :: []) 2).1 ≤
      (calculate_score_from_assessments
        ([] ++ (⟨FeatureType.CORE, "c1"⟩, ⟨true, "yes"⟩) :: []) 2).1 := by
  refine ⟨by norm_num, ?_⟩
  exact (C4_flip_monotone [] [] ⟨FeatureType.CORE, "c1"⟩ "no" "yes" "ans" 2
    (by norm_num)).1

/-- C1 counterexample: with the core category absent (one satisfied
important-detail feature only) and maxScore 1, the claim would put the
final fraction at 0.70 (core's nominal weight, granted for the absent
category) + 0.30 = 1.0 in `calculate_score_from_assessments`, and at
0.70 + 0.20 + 0.10 = 1.0 in `AnswerAssessment.calculate_score`, so both
scores would be 1.  The code returns 0.3 in both: an absent core category
contributes 0.0, not its nominal weight. -/
theorem C1_counterexample :
    core_total exC1 = 0 ∧
    (calculate_score_from_assessments exC1 1).1 = 3/10 ∧
    (calculate_score_from_assessments exC1 1).1 ≠
      round2 ((CORE_WEIGHT + CSA_IMPORTANT_WEIGHT) * 1) ∧
    ((AnswerAssessment.mk "a" exC1).calculate_score 1).1 = 3/10 ∧
    ((AnswerAssessment.mk "a" exC1).calculate_score 1).1 ≠
      round2 ((CORE_WEIGHT + ACS_IMPORTANT_WEIGHT + ACS_ADDITIONAL_WEIGHT) * 1) := by
  have hne : exC1 ≠ [] := by simp [exC1]
  have h0 : core_total exC1 = 0 := by decide
  have hip : csa_important_percentage exC1 = 3/10 := by
    have h1 : important_total exC1 = 1 := by decide
    have h2 : important_satisfied exC1 = 1 := by decide
    unfold csa_important_percentage
    rw [h1, h2]
    norm_num [CSA_IMPORTANT_WEIGHT]
  have hjp : acs_important_percentage exC1 = 2/10 := by
    have h1 : important_total exC1 = 1 := by decide
    have h2 : important_satisfied exC1 = 1 := by decide
    unfold acs_important_percentage
    rw [h1, h2]
    norm_num [ACS_IMPORTANT_WEIGHT]
  have hap : acs_additional_percentage exC1 = 1/10 := by
    have h1 : additional_total exC1 = 0 := by decide
    rw [acs_additional_percentage_of_zero h1]
    norm_num [ACS_ADDITIONAL_WEIGHT]
  have hsc : (calculate_score_from_assessments exC1 1).1 = 3/10 := by
    rw [csa_score_eq _ _ hne, core_percentage_of_zero h0, hip, zero_add,
      round2_eval 30 (by norm_num) (by norm_num)]
    norm_num
  have hsa : ((AnswerAssessment.mk "a" exC1).calculate_score 1).1 = 3/10 := by
    rw [acs_score_eq _ _ _ hne, core_percentage_of_zero h0, hjp, hap, zero_add,
      round2_eval 30 (by norm_num) (by norm_num)]
    norm_num
  have hclaim : round2 ((CORE_WEIGHT + CSA_IMPORTANT_WEIGHT) * 1) = 1 := by
    rw [round2_eval 100 (by norm_num [CORE_WEIGHT, CSA_IMPORTANT_WEIGHT])
      (by norm_num [CORE_WEIGHT, CSA_IMPORTANT_WEIGHT])]
    norm_num
  have hclaim' :
      round2 ((CORE_WEIGHT + ACS_IMPORTANT_WEIGHT + ACS_ADDITIONAL_WEIGHT) * 1) = 1 := by
    rw [round2_eval 100
      (by norm_num [CORE_WEIGHT, ACS_IMPORTANT_WEIGHT, ACS_ADDITIONAL_WEIGHT])
      (by norm_num [CORE_WEIGHT, ACS_IMPORTANT_WEIGHT, ACS_ADDITIONAL_WEIGHT])]
    norm_num
  refine ⟨h0, hsc, ?_, hsa, ?_⟩
  · rw [hsc, hclaim]
    norm_num
  · rw [hsa, hclaim']
    norm_num

/-- C1 (amended): in both scorers an absent non-core category contributes
its full nominal weight to the final fraction (0.30 for important in
`calculate_score_from_assessments`; 0.20 for important and 0.10 for
additional in `AnswerAssessment.calculate_score`), but an absent core
category contributes 0.0, not its 0.70 nominal weight. -/
theorem C1_absent_category_contribution (l : Assessments) (m : ℚ) (ans : String)
    (hne : l ≠ []) :
    (important_total l = 0 →
      (calculate_score_from_assessments l m).1 =
        round2 ((core_percentage l + CSA_IMPORTANT_WEIGHT) * m)) ∧
    (core_total l = 0 →
      (calculate_score_from_assessments l m).1 =
        round2 (csa_important_percentage l * m)) ∧
    (important_total l = 0 →
      ((AnswerAssessment.mk ans l).calculate_score m).1 =
        round2 ((core_percentage l + ACS_IMPORTANT_WEIGHT +
          acs_additional_percentage l) * m)) ∧
    (additional_total l = 0 →
      ((AnswerAssessment.mk ans l).calculate_score m).1 =
        round2 ((core_percentage l + acs_important_percentage l +
          ACS_ADDITIONAL_WEIGHT) * m)) ∧
    (core_total l = 0 →
      ((AnswerAssessment.mk ans l).calculate_score m).1 =
        round2 ((acs_important_percentage l + acs_additional_percentage l) * m)) := by
  refine ⟨fun h => ?_, fun h => ?_, fun h => ?_, fun h => ?_, fun h => ?_⟩
  · rw [csa_score_eq l m hne, csa_important_percentage_of_zero h]
  · rw [csa_score_eq l m hne, core_percentage_of_zero h, zero_add]
  · rw [acs_score_eq ans l m hne, acs_important_percentage_of_zero h]
  · rw [acs_score_eq ans l m hne, acs_additional_percentage_of_zero h]
  · rw [acs_score_eq ans l m hne, core_percentage_of_zero h, zero_add]

/-- Witness for the amended C1 at a concrete input (a one-core-feature
mapping: the important and additional categories are absent). -/
theorem C1_absent_category_contribution_witness :
    exC1w ≠ [] ∧ important_total exC1w = 0 ∧ additional_total exC1w = 0 ∧
    (calculate_score_from_assessments exC1w 2).1 =
      round2 ((core_percentage exC1w + CSA_IMPORTANT_WEIGHT) * 2) ∧
    ((AnswerAssessment.mk "a" exC1w).calculate_score 2).1 =
      round2 ((core_percentage exC1w + ACS_IMPORTANT_WEIGHT +
        acs_additional_percentage exC1w) * 2) ∧
    ((AnswerAssessment.mk "a" exC1w).calculate_score 2).1 =
      round2 ((core_percentage exC1w + acs_important_percentage exC1w +
        ACS_ADDITIONAL_WEIGHT) * 2) := by
  have h := C1_absent_category_contribution exC1w 2 "a" (by decide)
  exact ⟨by decide, by decide, by decide, h.1 (by decide), h.2.2.1 (by decide),
    h.2.2.2.1 (by decide)⟩

/-- C2 counterexample: every feature of every populated category is
satisfied (one satisfied important-detail feature; core is empty) and
maxScore 3, yet both scorers return 0.9, not 3 — not even within the 0.01
rounding tolerance. -/
theorem C2_counterexample :
    (∀ p ∈ exC2, p.2.satisfied = true) ∧
    (calculate_score_from_assessments exC2 3).1 = 9/10 ∧
    ¬ |(calculate_score_from_assessments exC2 3).1 - 3| ≤ 1/100 ∧
    ((AnswerAssessment.mk "a" exC2).calculate_score 3).1 = 9/10 ∧
    ¬ |((AnswerAssessment.mk "a" exC2).calculate_score 3).1 - 3| ≤ 1/100 := by
  have hne : exC2 ≠ [] := by simp [exC2]
  have h0 : core_total exC2 = 0 := by decide
  have hip : csa_important_percentage exC2 = 3/10 := by
    have h1 : important_total exC2 = 1 := by decide
    have h2 : important_satisfied exC2 = 1 := by decide
    unfold csa_important_percentage
    rw [h1, h2]
    norm_num [CSA_IMPORTANT_WEIGHT]
  have hjp : acs_important_percentage exC2 = 2/10 := by
    have h1 : important_total exC2 = 1 := by decide
    have h2 : important_satisfied exC2 = 1 := by decide
    unfold acs_important_percentage
    rw [h1, h2]
    norm_num [ACS_IMPORTANT_WEIGHT]
  have hap : acs_additional_percentage exC2 = 1/10 := by
    have h1 : additional_total exC2 = 0 := by decide
    rw [acs_additional_percentage_of_zero h1]
    norm_num [ACS_ADDITIONAL_WEIGHT]
  have hsc : (calculate_score_from_assessments exC2 3).1 = 9/10 := by
    rw [csa_score_eq _ _ hne, core_percentage_of_zero h0, hip, zero_add,
      round2_eval 90 (by norm_num) (by norm_num)]
    norm_num
  have hsa : ((AnswerAssessment.mk "a" exC2).calculate_score 3).1 = 9/10 := by
    rw [acs_score_eq _ _ _ hne, core_percentage_of_zero h0, hjp, hap, zero_add,
      round2_eval 90 (by norm_num) (by norm_num)]
    norm_num
  refine ⟨by decide, hsc, ?_, hsa, ?_⟩
  · rw [hsc, abs_of_nonpos (by norm_num)]
    norm_num
  · rw [hsa, abs_of_nonpos (by norm_num)]
    norm_num

/-- C2 (amended): if the core category is populated and every feature of
every populated category is assessed satisfied, both scorers return
`round2 maxScore`, which is within 1/200 of maxScore; with an empty core
category the full-credit property fails (see the counterexample). -/
theorem C2_full_credit (l : Assessments) (m : ℚ) (ans : String)
    (hc : 0 < core_total l) (hall : ∀ p ∈ l, p.2.satisfied = true) :
    (calculate_score_from_assessments l m).1 = round2 m ∧
    ((AnswerAssessment.mk ans l).calculate_score m).1 = round2 m ∧
    |round2 m - m| ≤ 1/200 := by
  have hne : l ≠ [] := by
    intro h
    subst h
    simp [core_total] at hc
  have hcs : core_satisfied l = core_total l :=
    List.countP_congr fun x hx => by simp [hall x hx]
  have his : important_satisfied l = important_total l :=
    List.countP_congr fun x hx => by simp [hall x hx]
  have has : additional_satisfied l = additional_total l :=
    List.countP_congr fun x hx => by simp [hall x hx]
  have hcn : ((core_total l : ℚ)) ≠ 0 := by exact_mod_cast hc.ne'
  have hcp : core_percentage l = CORE_WEIGHT := by
    unfold core_percentage
    rw [if_pos hc, hcs, div_self hcn, one_mul]
  have hip : csa_important_percentage l = CSA_IMPORTANT_WEIGHT := by
    unfold csa_important_percentage
    rcases Nat.eq_zero_or_pos (important_total l) with h | h
    · rw [if_neg (by omega)]
    · have hin : ((important_total l : ℚ)) ≠ 0 := by exact_mod_cast h.ne'
      rw [if_pos h, his, div_self hin, one_mul]
  have hjp : acs_important_percentage l = ACS_IMPORTANT_WEIGHT := by
    unfold acs_important_percentage
    rcases Nat.eq_zero_or_pos (important_total l) with h | h
    · rw [if_neg (by omega)]
    · have hin : ((important_total l : ℚ)) ≠ 0 := by exact_mod_cast h.ne'
      rw [if_pos h, his, div_self hin, one_mul]
  have hap : acs_additional_percentage l = ACS_ADDITIONAL_WEIGHT := by
    unfold acs_additional_percentage
    rcases Nat.eq_zero_or_pos (additional_total l) with h | h
    · rw [if_neg (by omega)]
    · have han : ((additional_total l : ℚ)) ≠ 0 := by exact_mod_cast h.ne'
      rw [if_pos h, has, div_self han, one_mul]
  refine ⟨?_, ?_, round2_abs_sub m⟩
  · rw [csa_score_eq l m hne, hcp, hip]
    norm_num [CORE_WEIGHT, CSA_IMPORTANT_WEIGHT]
  · rw [acs_score_eq ans l m hne, hcp, hjp, hap]
    norm_num [CORE_WEIGHT, ACS_IMPORTANT_WEIGHT, ACS_ADDITIONAL_WEIGHT]

/-- Witness for the amended C2 at a concrete input. -/
theorem C2_full_credit_witness :
    0 < core_total exC2w ∧ (∀ p ∈ exC2w, p.2.satisfied = true) ∧
    (calculate_score_from_assessments exC2w 3).1 = round2 3 := by
  refine ⟨by decide, by decide, ?_⟩
  exact (C2_full_credit exC2w 3 "a" (by decide) (by decide)).1

/-- C7: evaluation of `calculate_score_from_assessments` at a mapping with
two important-detail features, one satisfied.  The claim (and the spec's
step 7) requires the clause's raw percent to be `creditedCount/total*100 =
50`, but the code computes `important_percentage/0.20*100` while
`important_percentage` was built with weight 0.30, so the breakdown prints
75%.  The last conjunct shows what the claim's raw percent would render
as. -/
theorem C7_breakdown_divergence :
    (calculate_score_from_assessments exC7 2).2.1 =
      "Important: 1/2 (75% → 15%) = 15% of 2.0 = 0.3" ∧
    important_satisfied exC7 = 1 ∧ important_total exC7 = 2 ∧
    fmt0 ((important_satisfied exC7 : ℚ) / (important_total exC7 : ℚ) * 100) =
      "50" := by
  have hne : exC7 ≠ [] := by simp [exC7]
  have hc : core_total exC7 = 0 := by decide
  have hi : important_total exC7 = 2 := by decide
  have his : important_satisfied exC7 = 1 := by decide
  have hcp : core_percentage exC7 = 0 := core_percentage_of_zero hc
  have hip : csa_important_percentage exC7 = 3/20 := by
    unfold csa_important_percentage
    rw [hi, his]
    norm_num [CSA_IMPORTANT_WEIGHT]
  refine ⟨?_, his, hi, ?_⟩
  · rw [csa_result_eq _ _ hne]
    unfold csa_breakdown_parts
    rw [hc, hi, his, hcp, hip]
    rw [if_neg (by norm_num), if_pos (by norm_num)]
    rw [zero_add]
    rw [round2_eval 30 (by norm_num) (by norm_num)]
    rw [fmt0_eval 75 (by norm_num) (by norm_num)]
    rw [fmt0_eval 15 (by norm_num) (by norm_num)]
    have p1 : pyFloatRepr 2 = "2.0" := by
      unfold pyFloatRepr
      rw [round_rat_eval 200 (by norm_num) (by norm_num)]
      decide
    have p2 : pyFloatRepr ((30 : ℤ) / 100 : ℚ) = "0.3" := by
      unfold pyFloatRepr
      rw [round_rat_eval 30 (by norm_num) (by norm_num)]
      decide
    rw [p1, p2]
    decide
  · rw [his, hi]
    rw [fmt0_eval 50 (by norm_num) (by norm_num)]
    decide

/-- C8: for any mapping holding at least one core or important-detail
feature, removing every additional-detail entry leaves the whole result of
`calculate_score_from_assessments` (score, breakdown and statistics)
unchanged: additional details never influence the 70/30 output. -/
theorem C8_additional_independent (l : Assessments) (m : ℚ)
    (h : 0 < core_total l + important_total l) :
    calculate_score_from_assessments
        (l.filter fun p => !decide (p.1.type = FeatureType.DETAILS_ADDITIONAL)) m =
      calculate_score_from_assessments l m := by
  have h₁ : core_total
      (l.filter fun p => !decide (p.1.type = FeatureType.DETAILS_ADDITIONAL)) =
      core_total l := by
    unfold core_total
    rw [List.countP_filter]
    exact List.countP_congr fun x hx => by cases htype : x.1.type <;> simp [htype]
  have h₂ : core_satisfied
      (l.filter fun p => !decide (p.1.type = FeatureType.DETAILS_ADDITIONAL)) =
      core_satisfied l := by
    unfold core_satisfied
    rw [List.countP_filter]
    exact List.countP_congr fun x hx => by cases htype : x.1.type <;> simp [htype]
  have h₃ : important_total
      (l.filter fun p => !decide (p.1.type = FeatureType.DETAILS_ADDITIONAL)) =
      important_total l := by
    unfold important_total
    rw [List.countP_filter]
    exact List.countP_congr fun x hx => by cases htype : x.1.type <;> simp [htype]
  have h₄ : important_satisfied
      (l.filter fun p => !decide (p.1.type = FeatureType.DETAILS_ADDITIONAL)) =
      important_satisfied l := by
    unfold important_satisfied
    rw [List.countP_filter]
    exact List.countP_congr fun x hx => by cases htype : x.1.type <;> simp [htype]
  have hne : l ≠ [] := by
    intro he
    subst he
    simp [core_total, important_total] at h
  have hne' :
      l.filter (fun p => !decide (p.1.type = FeatureType.DETAILS_ADDITIONAL)) ≠ [] := by
    intro he
    have hz : core_total
        (l.filter fun p => !decide (p.1.type = FeatureType.DETAILS_ADDITIONAL)) +
        important_total
        (l.filter fun p => !decide (p.1.type = FeatureType.DETAILS_ADDITIONAL)) = 0 := by
      rw [he]
      simp [core_total, important_total]
    rw [h₁, h₃] at hz
    omega
  exact csa_eq_of_counts m hne' hne h₁ h₂ h₃ h₄

/-- Witness for C8 at a concrete input holding one core and one
additional-detail feature. -/
theorem C8_additional_independent_witness :
    0 < core_total exC8 + important_total exC8 ∧
    calculate_score_from_assessments
        (exC8.filter fun p => !decide (p.1.type = FeatureType.DETAILS_ADDITIONAL)) 3 =
      calculate_score_from_assessments exC8 3 :=
  ⟨by decide, C8_additional_independent exC8 3 (by decide)⟩

end ExamCorrector
